import Mathlib

/-!
Verification of the swbus message-bus core (sonic-dash-ha): a shallow embedding of
the next-hop forwarding state machine (crates/swbus-core/src/mux/nexthop.rs) and the
simple-client facade (crates/swbus-edge/src/simple_client.rs), with theorems about
routing responses, TTL handling, sink-mode behaviour, and outbound message stamping.

Machine integers are modelled as Nat with explicit wrap-around (mod 2 ^ 32) where the
source performs unchecked u32 arithmetic. Fallible Rust code is modelled with an
explicit outcome type distinguishing Ok, Err, and a crash (panic / unwrap of an Err /
unimplemented). Helper types from the swbus-proto crate (not part of the excerpt) are
modelled from the specification and marked as such in their doc comments.
-/

/-- Hierarchical bus address, spec section 3: ordered tuple of seven components;
trailing service_type / service_id may be empty, denoting the bus daemon itself. -/
structure ServicePath where
  region : String
  cluster : String
  node : String
  resource_type : String
  resource_id : String
  service_type : String
  service_id : String
deriving DecidableEq, Repr

/-- Closed enumeration of error codes, spec section 6. -/
inductive SwbusErrorCode where
  | Ok
  | InvalidArgs
  | NoRoute
  | Unreachable
  | ResourceExhausted
  | Timeout
  | UnknownError
deriving DecidableEq, Repr

/-- Errors carried by the Rust Result type: input errors built with
SwbusError::input(code, message), and the connection-proxy queue-full error. -/
inductive SwbusError where
  | input (code : SwbusErrorCode) (message : String)
  | queueFull
deriving DecidableEq, Repr

/-- Outcome of a Rust call: Ok value, Err, or a crash (panic: a failed unwrap or
expect, or unimplemented code). -/
inductive RustOutcome (α : Type) where
  | ok (a : α)
  | err (e : SwbusError)
  | crash
deriving DecidableEq, Repr

/-- Message header, spec section 3: version, id, flag, ttl (u32, default 63),
source and destination service paths (optional, protobuf-style). -/
structure SwbusMessageHeader where
  version : Nat
  id : Nat
  flag : Nat
  ttl : Nat
  source : Option ServicePath
  destination : Option ServicePath
deriving DecidableEq, Repr

/-- Modelled from the spec: SwbusMessageHeader::new (swbus-proto, not under src/).
Fresh headers carry version 1, flag 0, and the default ttl 63 (spec sections 3, 6). -/
def SwbusMessageHeader.new (source destination : ServicePath) (id : Nat) : SwbusMessageHeader :=
  { version := 1, id := id, flag := 0, ttl := 63
    source := some source, destination := some destination }

/-- Route-table snapshot returned by export_routes; its content is opaque to the
next-hop logic, so it is modelled as an abstract list of entries. -/
structure RouteQueryResult where
  entries : List String
deriving DecidableEq, Repr

/-- Response body variants, spec section 3. -/
inductive ResponseBody where
  | RouteQueryResult (routes : RouteQueryResult)
  | ManagementQueryResult (value : String)
deriving DecidableEq, Repr

/-- Response message body, spec section 3. The error code is stored as the closed
enumeration (the wire format stores the corresponding i32). -/
structure RequestResponse where
  request_id : Nat
  error_code : SwbusErrorCode
  error_message : String
  response_body : Option ResponseBody
deriving DecidableEq, Repr

/-- Modelled from the spec: RequestResponse::ok (swbus-proto, not under src/): an OK
response echoing the request id, with empty message and no body. -/
def RequestResponse.ok (request_id : Nat) : RequestResponse :=
  { request_id := request_id, error_code := .Ok, error_message := "", response_body := none }

/-- Modelled from the spec: RequestResponse::infra_error (swbus-proto, not under
src/): a response carrying an infra error code and message, with no body. -/
def RequestResponse.infra_error (request_id : Nat) (code : SwbusErrorCode) (message : String) :
    RequestResponse :=
  { request_id := request_id, error_code := code, error_message := message, response_body := none }

/-- Empty ping request body. -/
structure PingRequest where
deriving DecidableEq, Repr

/-- Empty traceroute request body. -/
structure TraceRouteRequest where
deriving DecidableEq, Repr

/-- Data request body carrying an opaque payload (bytes modelled as Nat list). -/
structure DataRequest where
  payload : List Nat
deriving DecidableEq, Repr

/-- Management request body: the raw wire request type (i32 modelled as Int) and
string arguments. -/
structure ManagementRequest where
  request : Int
  arguments : List (String × String)
deriving DecidableEq, Repr

/-- Message body tagged union, spec section 3. -/
inductive Body where
  | DataRequest (d : DataRequest)
  | Response (r : RequestResponse)
  | PingRequest (p : PingRequest)
  | TraceRouteRequest (t : TraceRouteRequest)
  | ManagementRequest (m : ManagementRequest)
deriving DecidableEq, Repr

/-- The bus envelope: optional header and optional body (protobuf-style). -/
structure SwbusMessage where
  header : Option SwbusMessageHeader
  body : Option Body
deriving DecidableEq, Repr

/-- Modelled from the spec: SwbusMessage::new (swbus-proto, not under src/): wraps a
header and a body into an envelope. -/
def SwbusMessage.new (header : SwbusMessageHeader) (body : Body) : SwbusMessage :=
  { header := some header, body := some body }

/-- Modelled from the spec: SwbusMessage::new_response (swbus-proto, not under src/).
Spec section 4.B: the produced header has source = responder_sp or request.destination,
destination = request.source, id = new_id, ttl reset to the default 63; the body is
Response with request_id = request.header.id and the given code, message, and body.
The spec invariant (section 3) has the request header present; a missing header
contributes the protobuf defaults. -/
def SwbusMessage.new_response (request : SwbusMessage) (responder_sp : Option ServicePath)
    (error_code : SwbusErrorCode) (error_message : String) (new_id : Nat)
    (response_body : Option ResponseBody) : SwbusMessage :=
  { header := some
      { version := 1
        id := new_id
        flag := 0
        ttl := 63
        source :=
          match responder_sp with
          | some sp => some sp
          | none => request.header.bind (fun h => h.destination)
        destination := request.header.bind (fun h => h.source) }
    body := some (.Response
      { request_id := (request.header.map (fun h => h.id)).getD 0
        error_code := error_code
        error_message := error_message
        response_body := response_body }) }

/-- Modelled from the spec: decoding of the on-wire i32 management request type
(ManagementRequestType::try_from, swbus-proto, not under src/). The spec (section 6)
fixes only that SwbusdGetRoutes is one valid type and that other types are reserved;
we model SwbusdGetRoutes as wire value 0, a band of reserved-but-decodable values
1..7, and every other value as unparseable. -/
inductive ManagementRequestType where
  | SwbusdGetRoutes
  | Reserved (n : Nat)
deriving DecidableEq, Repr

/-- Modelled from the spec: see ManagementRequestType. -/
def ManagementRequestType.tryFrom (n : Int) : Option ManagementRequestType :=
  if n = 0 then some .SwbusdGetRoutes
  else if 0 < n ∧ n < 8 then some (.Reserved n.toNat)
  else none

/-- Connection info descriptor; the next-hop logic only stores it, so it is modelled
by its diagnostic id. -/
structure SwbusConnInfo where
  id : String
deriving DecidableEq, Repr

/-- Connection proxy, spec section 3: a handle on a bounded send queue. try_queue
fails with QueueFull when the queue is saturated. -/
structure SwbusConnProxy where
  queue : List SwbusMessage
  capacity : Nat
deriving DecidableEq, Repr

/-- Modelled from the spec: SwbusConnProxy::try_queue (swbus-core connection code, not
in the excerpt): enqueue the message if the bounded queue has room, else fail with
QueueFull (spec section 3, Connection Proxy). -/
def SwbusConnProxy.try_queue (p : SwbusConnProxy) (m : SwbusMessage) :
    Except SwbusError SwbusConnProxy :=
  if p.queue.length < p.capacity then .ok { p with queue := p.queue ++ [m] }
  else .error .queueFull

/-- Multiplexer state visible to the next hop: the daemon's own service path, the
message-id generator (generate_message_id returns next_id), and the route-table
snapshot returned by export_routes. -/
structure SwbusMultiplexer where
  my_service_path : ServicePath
  next_id : Nat
  routes : RouteQueryResult
deriving DecidableEq, Repr

/-- The daemon's own service path (mux.get_my_service_path). -/
def SwbusMultiplexer.get_my_service_path (mux : SwbusMultiplexer) : ServicePath :=
  mux.my_service_path

/-- The next value of the per-process id generator (mux.generate_message_id). -/
def SwbusMultiplexer.generate_message_id (mux : SwbusMultiplexer) : Nat :=
  mux.next_id

/-- Route-table snapshot (mux.export_routes with no filter). -/
def SwbusMultiplexer.export_routes (mux : SwbusMultiplexer) : RouteQueryResult :=
  mux.routes

/-- Next-hop kind, nexthop.rs. -/
inductive NextHopType where
  | Local
  | Remote
deriving DecidableEq, Repr

/-- Next hop, nexthop.rs: local terminus, or remote forwarder with connection info,
connection proxy, and hop count. -/
structure SwbusNextHop where
  nh_type : NextHopType
  conn_info : Option SwbusConnInfo
  conn_proxy : Option SwbusConnProxy
  hop_count : Nat
deriving DecidableEq, Repr

/-- SwbusNextHop::new_remote, nexthop.rs. -/
def SwbusNextHop.new_remote (conn_info : SwbusConnInfo) (conn_proxy : SwbusConnProxy)
    (hop_count : Nat) : SwbusNextHop :=
  { nh_type := .Remote, conn_info := some conn_info, conn_proxy := some conn_proxy
    hop_count := hop_count }

/-- SwbusNextHop::new_local, nexthop.rs. -/
def SwbusNextHop.new_local : SwbusNextHop :=
  { nh_type := .Local, conn_info := none, conn_proxy := none, hop_count := 0 }

/-- process_ping_request, nexthop.rs: an OK response with a freshly generated id
(always Ok). -/
def SwbusNextHop.process_ping_request (mux : SwbusMultiplexer) (message : SwbusMessage) :
    Except SwbusError SwbusMessage :=
  .ok (SwbusMessage.new_response message none .Ok "" mux.generate_message_id none)

/-- process_mgmt_request, nexthop.rs: decode the management request type (an
undecodable type is an InvalidArgs input error); SwbusdGetRoutes answers with the
route-table snapshot; every other type is an InvalidArgs input error. -/
def SwbusNextHop.process_mgmt_request (mux : SwbusMultiplexer) (message : SwbusMessage)
    (mgmt_request : ManagementRequest) : Except SwbusError SwbusMessage :=
  match ManagementRequestType.tryFrom mgmt_request.request with
  | none => .error (.input .InvalidArgs "Invalid management request")
  | some .SwbusdGetRoutes =>
      .ok (SwbusMessage.new_response message none .Ok "" mux.generate_message_id
        (some (.RouteQueryResult mux.export_routes)))
  | some (.Reserved _) => .error (.input .InvalidArgs "Invalid management request")

/-- process_local_message, nexthop.rs. The header and its destination are unwrapped
(crash when absent). A destination with non-empty service_type gets a NoRoute
response; otherwise a PingRequest or ManagementRequest body is processed (the inner
Result is unwrapped: an Err crashes), and any other body is dropped silently. -/
def SwbusNextHop.process_local_message (mux : SwbusMultiplexer) (message : SwbusMessage) :
    RustOutcome (Option SwbusMessage) :=
  match message.header with
  | none => .crash
  | some header =>
    match header.destination with
    | none => .crash
    | some dest_sp =>
      if dest_sp.service_type ≠ "" then
        .ok (some (SwbusMessage.new_response message none .NoRoute "Route not found"
          mux.generate_message_id none))
      else
        match message.body with
        | some (.PingRequest _) =>
          match SwbusNextHop.process_ping_request mux message with
          | .ok r => .ok (some r)
          | .error _ => .crash
        | some (.ManagementRequest mgmt_request) =>
          match SwbusNextHop.process_mgmt_request mux message mgmt_request with
          | .ok r => .ok (some r)
          | .error _ => .crash
        | _ => .ok none

/-- The contents of the next hop's remote send queue (empty when the next hop has no
connection proxy). -/
def SwbusNextHop.queue_contents (nh : SwbusNextHop) : List SwbusMessage :=
  match nh.conn_proxy with
  | none => []
  | some p => p.queue

/-- queue_message, nexthop.rs. Returns the Rust outcome together with the contents of
the next hop's remote send queue after the call. A Local next hop delegates to
process_local_message. A Remote next hop unwraps the header (crash when absent),
performs the unchecked u32 decrement of ttl (wrap-around modelled by mod 2 ^ 32);
when the decremented ttl is zero it returns an Unreachable "TTL expired" response
with the daemon's own service path as responder; otherwise it submits the decremented
message to the connection proxy's bounded send queue (Err when the queue is full). -/
def SwbusNextHop.queue_message (nh : SwbusNextHop) (mux : SwbusMultiplexer)
    (message : SwbusMessage) : RustOutcome (Option SwbusMessage) × List SwbusMessage :=
  match nh.nh_type with
  | .Local => (SwbusNextHop.process_local_message mux message, nh.queue_contents)
  | .Remote =>
    match message.header with
    | none => (.crash, nh.queue_contents)
    | some header =>
      let ttl2 := (header.ttl + (2 ^ 32 - 1)) % 2 ^ 32
      let message2 : SwbusMessage := { message with header := some { header with ttl := ttl2 } }
      if ttl2 = 0 then
        (.ok (some (SwbusMessage.new_response message2 (some mux.get_my_service_path)
          .Unreachable "TTL expired" mux.generate_message_id none)), nh.queue_contents)
      else
        match nh.conn_proxy with
        | none => (.crash, [])
        | some p =>
          match p.try_queue message2 with
          | .ok p2 => (.ok none, p2.queue)
          | .error e => (.err e, p.queue)

/-- Swbus message id type, simple_client.rs: alias for u64. -/
def MessageId := Nat

/-- Simplified message body used by the actor-facing envelope, simple_client.rs. -/
inductive MessageResponseBody where
  | ManagementQueryResult (payload : String)
deriving DecidableEq, Repr

/-- Simplified body variants, simple_client.rs: Request, Response, ManagementRequest
(argument map modelled as an association list). -/
inductive MessageBody where
  | Request (payload : List Nat)
  | Response (request_id : Nat) (error_code : SwbusErrorCode) (error_message : String)
      (response_body : Option MessageResponseBody)
  | ManagementRequest (request : ManagementRequestType) (args : List (String × String))
deriving DecidableEq, Repr

/-- A message received from another Swbus client, simple_client.rs. -/
structure IncomingMessage where
  id : Nat
  source : ServicePath
  destination : ServicePath
  body : MessageBody
deriving DecidableEq, Repr

/-- A message to send to another Swbus client, simple_client.rs. -/
structure OutgoingMessage where
  destination : ServicePath
  body : MessageBody
deriving DecidableEq, Repr

/-- Classification of a received message, simple_client.rs: deliver to the actor,
send a synthesized reply without waking the actor, or ignore. recv loops until a
message classifies as PassToActor, so only those reach the actor. -/
inductive HandleReceivedMessage where
  | PassToActor (m : IncomingMessage)
  | Respond (m : SwbusMessage)
  | Ignore
deriving DecidableEq, Repr

/-- Simple client state, simple_client.rs: own source address, sink flag, and the
id generator (generate returns next_id). -/
structure SimpleSwbusEdgeClient where
  source : ServicePath
  sink : Bool
  next_id : Nat
deriving DecidableEq, Repr

/-- handle_received_message, simple_client.rs. Header, its source and destination,
and the body are unwrapped (none models the panic when a field is missing). In sink
mode a message whose destination is not exactly the client's own address is answered
with a NoRoute "Route not found" response and discarded. Otherwise DataRequest,
Response, and decodable ManagementRequest bodies pass to the actor; PingRequest and
TraceRouteRequest are answered with an OK response addressed back to the sender; an
undecodable management type is ignored. -/
def SimpleSwbusEdgeClient.handle_received_message (c : SimpleSwbusEdgeClient)
    (msg : SwbusMessage) : Option HandleReceivedMessage :=
  match msg.header with
  | none => none
  | some header =>
    let id := header.id
    match header.source with
    | none => none
    | some source =>
      match header.destination with
      | none => none
      | some destination =>
        match msg.body with
        | none => none
        | some body =>
          if c.sink = true ∧ destination ≠ c.source then
            some (.Respond (SwbusMessage.new
              (SwbusMessageHeader.new c.source source c.next_id)
              (.Response (RequestResponse.infra_error id .NoRoute "Route not found"))))
          else
            match body with
            | .DataRequest d =>
              some (.PassToActor
                { id := id, source := source, destination := destination
                  body := .Request d.payload })
            | .Response r =>
              some (.PassToActor
                { id := id, source := source, destination := destination
                  body := .Response r.request_id r.error_code r.error_message none })
            | .PingRequest _ =>
              some (.Respond (SwbusMessage.new
                (SwbusMessageHeader.new destination source c.next_id)
                (.Response (RequestResponse.ok id))))
            | .TraceRouteRequest _ =>
              some (.Respond (SwbusMessage.new
                (SwbusMessageHeader.new destination source c.next_id)
                (.Response (RequestResponse.ok id))))
            | .ManagementRequest m =>
              match ManagementRequestType.tryFrom m.request with
              | none => some .Ignore
              | some request_type =>
                some (.PassToActor
                  { id := id, source := source, destination := destination
                    body := .ManagementRequest request_type m.arguments })

/-- outgoing_message_to_swbus_message, simple_client.rs: stamp a freshly generated id
and the client's own source address onto the outgoing message; the destination is
taken from the OutgoingMessage unchanged. A ManagementRequest body is unimplemented
(none models the crash). -/
def SimpleSwbusEdgeClient.outgoing_message_to_swbus_message (c : SimpleSwbusEdgeClient)
    (msg : OutgoingMessage) : Option (Nat × SwbusMessage) :=
  let id := c.next_id
  match msg.body with
  | .Request payload =>
    some (id, { header := some (SwbusMessageHeader.new c.source msg.destination id)
                body := some (.DataRequest { payload := payload }) })
  | .Response request_id error_code error_message response_body =>
    some (id, { header := some (SwbusMessageHeader.new c.source msg.destination id)
                body := some (.Response
                  { request_id := request_id
                    error_code := error_code
                    error_message := error_message
                    response_body := response_body.map (fun b =>
                      match b with
                      | .ManagementQueryResult payload =>
                        ResponseBody.ManagementQueryResult payload) }) })
  | .ManagementRequest _ _ => none

/-- send, simple_client.rs: compile the OutgoingMessage (crash on ManagementRequest,
modelled by none), hand the compiled message to the runtime (rt_send models
SwbusEdgeRuntime::send, which is outside the excerpt), and return the generated id
on success. -/
def SimpleSwbusEdgeClient.send (c : SimpleSwbusEdgeClient)
    (rt_send : SwbusMessage → Except SwbusError Unit) (msg : OutgoingMessage) :
    Option (Except SwbusError Nat) :=
  match c.outgoing_message_to_swbus_message msg with
  | none => none
  | some (id, m) =>
    match rt_send m with
    | .ok _ => some (.ok id)
    | .error e => some (.error e)

/-- Sample source address of a ping client (scenario section 8). -/
def spPingSource : ServicePath :=
  { region := "region-a", cluster := "cluster-a", node := "10.0.0.1-dpu0"
    resource_type := "testsvc", resource_id := "0", service_type := "ping", service_id := "0" }

/-- Sample destination addressed to the daemon itself: empty service_type. -/
def spDaemonLocal : ServicePath :=
  { region := "region-a", cluster := "cluster-a", node := "10.0.0.2-dpu0"
    resource_type := "local-mgmt", resource_id := "0", service_type := "", service_id := "" }

/-- Sample destination naming a service the daemon does not host: non-empty
service_type. -/
def spUnknownSvc : ServicePath :=
  { region := "region-a", cluster := "cluster-a", node := "10.0.0.2-dpu0"
    resource_type := "dpu", resource_id := "0", service_type := "unknown-svc", service_id := "0" }

/-- Sample daemon service path. -/
def spDaemon : ServicePath :=
  { region := "region-a", cluster := "cluster-a", node := "10.0.0.2-dpu0"
    resource_type := "", resource_id := "", service_type := "", service_id := "" }

/-- Sample multiplexer state. -/
def muxSample : SwbusMultiplexer :=
  { my_service_path := spDaemon, next_id := 100, routes := { entries := [] } }

/-- Sample message addressed to the daemon itself whose body is a ManagementRequest
with an undecodable request type (wire value 999). -/
def invalidMgmtMsg : SwbusMessage :=
  { header := some
      { version := 1, id := 10, flag := 0, ttl := 63
        source := some spPingSource, destination := some spDaemonLocal }
    body := some (.ManagementRequest { request := 999, arguments := [] }) }

/-- C1: the claim says a ManagementRequest with a request type other than
SwbusdGetRoutes, addressed to the daemon itself, makes queue_message return
Ok(Some(resp)) with an InvalidArgs Response, never a local failure. The code instead
unwraps the Err produced by process_mgmt_request, so queue_message crashes at this
input instead of returning the input error as a Response. -/
theorem C1_invalid_mgmt_crashes :
    SwbusNextHop.new_local.queue_message muxSample invalidMgmtMsg = (.crash, []) := by
  rfl

/-- C5: for every message handed to a Local next hop whose destination has a
non-empty service_type, queue_message returns Ok(Some(resp)) where resp is a NoRoute
Response with message "Route not found" echoing the request id, addressed back to the
request source, regardless of the message body; nothing is put on any send queue. -/
theorem C5_local_noroute (mux : SwbusMultiplexer) (msg : SwbusMessage)
    (h : SwbusMessageHeader) (d : ServicePath)
    (hh : msg.header = some h) (hd : h.destination = some d) (hst : d.service_type ≠ "") :
    SwbusNextHop.new_local.queue_message mux msg =
      (.ok (some
        { header := some
            { version := 1, id := mux.next_id, flag := 0, ttl := 63
              source := some d, destination := h.source }
          body := some (.Response
            { request_id := h.id, error_code := .NoRoute
              error_message := "Route not found", response_body := none }) }), []) := by
  simp [SwbusNextHop.queue_message, SwbusNextHop.new_local, SwbusNextHop.queue_contents,
        SwbusNextHop.process_local_message, SwbusMessage.new_response,
        SwbusMultiplexer.generate_message_id, hh, hd, hst]

/-- Closed witness for C5 at a concrete input. -/
theorem C5_local_noroute_witness :
    SwbusNextHop.new_local.queue_message muxSample
      { header := some
          { version := 1, id := 10, flag := 0, ttl := 63
            source := some spPingSource, destination := some spUnknownSvc }
        body := some (.PingRequest {}) } =
      (.ok (some
        { header := some
            { version := 1, id := 100, flag := 0, ttl := 63
              source := some spUnknownSvc, destination := some spPingSource }
          body := some (.Response
            { request_id := 10, error_code := .NoRoute
              error_message := "Route not found", response_body := none }) }), []) := by
  exact C5_local_noroute muxSample
    { header := some
        { version := 1, id := 10, flag := 0, ttl := 63
          source := some spPingSource, destination := some spUnknownSvc }
      body := some (.PingRequest {}) }
    { version := 1, id := 10, flag := 0, ttl := 63
      source := some spPingSource, destination := some spUnknownSvc }
    spUnknownSvc rfl rfl (by decide)

/-- C6: a message handed to a Local next hop, addressed to the daemon itself (empty
service_type), whose body is neither a PingRequest nor a ManagementRequest (including
a missing body), is silently dropped: queue_message returns Ok(None) and no response
is emitted. -/
theorem C6_local_drop (mux : SwbusMultiplexer) (msg : SwbusMessage)
    (h : SwbusMessageHeader) (d : ServicePath)
    (hh : msg.header = some h) (hd : h.destination = some d) (hst : d.service_type = "")
    (hp : ∀ p, msg.body ≠ some (Body.PingRequest p))
    (hm : ∀ m, msg.body ≠ some (Body.ManagementRequest m)) :
    SwbusNextHop.new_local.queue_message mux msg = (.ok none, []) := by
  have hbody : (match msg.body with
      | some (.PingRequest _) => True
      | some (.ManagementRequest _) => True
      | _ => False) → False := by
    cases hb : msg.body with
    | none => simp
    | some b =>
      cases b with
      | PingRequest p => exact fun _ => hp p hb
      | ManagementRequest m => exact fun _ => hm m hb
      | _ => simp
  simp only [SwbusNextHop.queue_message, SwbusNextHop.new_local, SwbusNextHop.queue_contents,
    SwbusNextHop.process_local_message, hh, hd, hst]
  cases hb : msg.body with
  | none => simp
  | some b =>
    cases b with
    | PingRequest p => exact absurd (by rw [hb] at hbody; exact hbody trivial) (fun x => x)
    | ManagementRequest m => exact absurd (by rw [hb] at hbody; exact hbody trivial) (fun x => x)
    | DataRequest d => simp
    | Response r => simp
    | TraceRouteRequest t => simp

/-- Closed witness for C6 at a concrete input: a DataRequest addressed to the daemon
itself is dropped. -/
theorem C6_local_drop_witness :
    SwbusNextHop.new_local.queue_message muxSample
      { header := some
          { version := 1, id := 11, flag := 0, ttl := 63
            source := some spPingSource, destination := some spDaemonLocal }
        body := some (.DataRequest { payload := [1, 2, 3] }) } = (.ok none, []) := by
  exact C6_local_drop muxSample _ _ spDaemonLocal rfl rfl rfl
    (fun p hc => by simp at hc) (fun m hc => by simp at hc)

/-- C7: a PingRequest handed to a Local next hop, addressed to the daemon itself
(empty service_type), gets Ok(Some(resp)) where resp is an Ok Response carrying the
freshly generated message id and addressed to the request's source service path. -/
theorem C7_local_ping (mux : SwbusMultiplexer) (msg : SwbusMessage)
    (h : SwbusMessageHeader) (d : ServicePath) (p : PingRequest)
    (hh : msg.header = some h) (hd : h.destination = some d) (hst : d.service_type = "")
    (hb : msg.body = some (Body.PingRequest p)) :
    SwbusNextHop.new_local.queue_message mux msg =
      (.ok (some
        { header := some
            { version := 1, id := mux.next_id, flag := 0, ttl := 63
              source := some d, destination := h.source }
          body := some (.Response
            { request_id := h.id, error_code := .Ok
              error_message := "", response_body := none }) }), []) := by
  simp [SwbusNextHop.queue_message, SwbusNextHop.new_local, SwbusNextHop.queue_contents,
        SwbusNextHop.process_local_message, SwbusNextHop.process_ping_request,
        SwbusMessage.new_response, SwbusMultiplexer.generate_message_id, hh, hd, hst, hb]

/-- Closed witness for C7 at a concrete input (scenario 1, section 8). -/
theorem C7_local_ping_witness :
    SwbusNextHop.new_local.queue_message muxSample
      { header := some
          { version := 1, id := 12, flag := 0, ttl := 63
            source := some spPingSource, destination := some spDaemonLocal }
        body := some (.PingRequest {}) } =
      (.ok (some
        { header := some
            { version := 1, id := 100, flag := 0, ttl := 63
              source := some spDaemonLocal, destination := some spPingSource }
          body := some (.Response
            { request_id := 12, error_code := .Ok
              error_message := "", response_body := none }) }), []) := by
  exact C7_local_ping muxSample
    { header := some
        { version := 1, id := 12, flag := 0, ttl := 63
          source := some spPingSource, destination := some spDaemonLocal }
      body := some (.PingRequest {}) }
    { version := 1, id := 12, flag := 0, ttl := 63
      source := some spPingSource, destination := some spDaemonLocal }
    spDaemonLocal {} rfl rfl rfl rfl

/-- The unchecked u32 decrement does not wrap when the ttl is at least 1 and in u32
range: it equals the arithmetic decrement. -/
theorem ttlWrapDec (t : Nat) (h1 : 1 ≤ t) (h2 : t < 2 ^ 32) :
    (t + (2 ^ 32 - 1)) % 2 ^ 32 = t - 1 := by
  have e : (2 : Nat) ^ 32 = 4294967296 := by norm_num
  rw [e] at h2 ⊢
  omega

/-- C3: a message handed to a Remote next hop has its ttl decremented; when the
decremented ttl is zero queue_message returns an Unreachable "TTL expired" Response
whose source is the daemon's own service path and nothing is enqueued on the remote
send queue; otherwise the decremented message is submitted to the connection proxy's
send queue and queue_message returns Ok(None). -/
theorem C3_remote_ttl (ci : SwbusConnInfo) (p : SwbusConnProxy) (hc : Nat)
    (mux : SwbusMultiplexer) (msg : SwbusMessage) (h : SwbusMessageHeader)
    (hh : msg.header = some h) (h1 : 1 ≤ h.ttl) (h2 : h.ttl < 2 ^ 32)
    (hq : p.queue.length < p.capacity) :
    (SwbusNextHop.new_remote ci p hc).queue_message mux msg =
      if h.ttl = 1 then
        (.ok (some
          { header := some
              { version := 1, id := mux.next_id, flag := 0, ttl := 63
                source := some mux.my_service_path, destination := h.source }
            body := some (.Response
              { request_id := h.id, error_code := .Unreachable
                error_message := "TTL expired", response_body := none }) }), p.queue)
      else
        (.ok none, p.queue ++ [{ msg with header := some { h with ttl := h.ttl - 1 } }]) := by
  have e : (2 : Nat) ^ 32 = 4294967296 := by norm_num
  rw [e] at h2
  have key : (h.ttl + 4294967295) % 4294967296 = h.ttl - 1 := by omega
  by_cases ht : h.ttl = 1
  · have hz : h.ttl - 1 = 0 := by omega
    simp [SwbusNextHop.queue_message, SwbusNextHop.new_remote, SwbusNextHop.queue_contents,
      SwbusMessage.new_response, SwbusMultiplexer.get_my_service_path,
      SwbusMultiplexer.generate_message_id, hh, key, hz, ht]
  · have hz : ¬(h.ttl - 1 = 0) := by omega
    simp [SwbusNextHop.queue_message, SwbusNextHop.new_remote, SwbusNextHop.queue_contents,
      SwbusConnProxy.try_queue, hh, key, hz, ht, hq]

/-- Sample remote connection info. -/
def connSample : SwbusConnInfo := { id := "swbusd.cluster.10.0.0.2-dpu0" }

/-- Sample empty bounded send queue. -/
def proxySample : SwbusConnProxy := { queue := [], capacity := 16 }

/-- Sample destination behind a remote next hop (scenario 2, section 8). -/
def spRemoteDest : ServicePath :=
  { region := "region-a", cluster := "cluster-a", node := "10.0.0.3-dpu0"
    resource_type := "local-mgmt", resource_id := "0", service_type := "", service_id := "" }

/-- Sample remote-bound message header, parameterized by ttl. -/
def remoteHeader (ttl : Nat) : SwbusMessageHeader :=
  { version := 1, id := 20, flag := 0, ttl := ttl
    source := some spPingSource, destination := some spRemoteDest }

/-- Sample remote-bound message, parameterized by ttl. -/
def remoteMsg (ttl : Nat) : SwbusMessage :=
  { header := some (remoteHeader ttl), body := some (.PingRequest {}) }

/-- Closed witness for C3 at a concrete input: ttl 1 expires (scenario 2, section 8);
the remote send queue stays empty. -/
theorem C3_remote_ttl_witness :
    (SwbusNextHop.new_remote connSample proxySample 5).queue_message muxSample (remoteMsg 1) =
      (.ok (some
        { header := some
            { version := 1, id := 100, flag := 0, ttl := 63
              source := some spDaemon, destination := some spPingSource }
          body := some (.Response
            { request_id := 20, error_code := .Unreachable
              error_message := "TTL expired", response_body := none }) }), []) := by
  have := C3_remote_ttl connSample proxySample 5 muxSample (remoteMsg 1) (remoteHeader 1)
    rfl (by decide) (by decide) (by decide)
  simpa [remoteHeader, muxSample, spDaemon] using this

/-- C4: the u32 decrement of header.ttl in the Remote branch is unguarded: a message
arriving with ttl = 0 wraps the ttl to 2 ^ 32 - 1 and is forwarded instead of
yielding an Unreachable response; under the precondition ttl at least 1 the decrement
is the safe arithmetic decrement and the TTL-expired branch (an Ok(Some(response))
return) is taken exactly when ttl = 1. -/
theorem C4_ttl_underflow (ci : SwbusConnInfo) (p : SwbusConnProxy) (hc : Nat)
    (mux : SwbusMultiplexer) (msg : SwbusMessage) (h : SwbusMessageHeader)
    (hh : msg.header = some h) (h2 : h.ttl < 2 ^ 32) (hq : p.queue.length < p.capacity) :
    (h.ttl = 0 →
      (SwbusNextHop.new_remote ci p hc).queue_message mux msg =
        (.ok none, p.queue ++ [{ msg with header := some { h with ttl := 2 ^ 32 - 1 } }]))
    ∧ (1 ≤ h.ttl →
        ((h.ttl + (2 ^ 32 - 1)) % 2 ^ 32 = h.ttl - 1
        ∧ ((∃ r, ((SwbusNextHop.new_remote ci p hc).queue_message mux msg).1 = .ok (some r))
            ↔ h.ttl = 1))) := by
  have e : (2 : Nat) ^ 32 = 4294967296 := by norm_num
  rw [e] at h2
  constructor
  · intro h0
    have key : (h.ttl + 4294967295) % 4294967296 = 4294967295 := by omega
    have hz : ¬((4294967295 : Nat) = 0) := by norm_num
    have hw : (2 : Nat) ^ 32 - 1 = 4294967295 := by norm_num
    rw [hw]
    simp [SwbusNextHop.queue_message, SwbusNextHop.new_remote, SwbusNextHop.queue_contents,
      SwbusConnProxy.try_queue, hh, key, hz, hq]
  · intro h1
    have key : (h.ttl + 4294967295) % 4294967296 = h.ttl - 1 := by omega
    have keyp : (h.ttl + (2 ^ 32 - 1)) % 2 ^ 32 = h.ttl - 1 := by
      rw [e]
      exact key
    refine ⟨keyp, ?_⟩
    by_cases ht : h.ttl = 1
    · have hz : h.ttl - 1 = 0 := by omega
      constructor
      · intro _
        exact ht
      · intro _
        have hres : ((SwbusNextHop.new_remote ci p hc).queue_message mux msg).1 =
            RustOutcome.ok (some (SwbusMessage.new_response
              { msg with header := some { h with ttl := h.ttl - 1 } }
              (some mux.get_my_service_path) .Unreachable "TTL expired"
              mux.generate_message_id none)) := by
          simp [SwbusNextHop.queue_message, SwbusNextHop.new_remote,
            SwbusNextHop.queue_contents, hh, key, hz]
        exact ⟨_, hres⟩
    · have hz : ¬(h.ttl - 1 = 0) := by omega
      constructor
      · intro hex
        rcases hex with ⟨r, hr⟩
        simp [SwbusNextHop.queue_message, SwbusNextHop.new_remote, SwbusNextHop.queue_contents,
          SwbusConnProxy.try_queue, hh, key, hz, hq] at hr
      · intro hcon
        exact absurd hcon ht

/-- Closed witness for C4 at a concrete input: a ttl 0 message is forwarded with the
wrapped ttl 2 ^ 32 - 1 rather than answered with an Unreachable response. -/
theorem C4_ttl_underflow_witness :
    (SwbusNextHop.new_remote connSample proxySample 5).queue_message muxSample (remoteMsg 0) =
      (.ok none, [remoteMsg (2 ^ 32 - 1)]) := by
  have := (C4_ttl_underflow connSample proxySample 5 muxSample (remoteMsg 0) (remoteHeader 0)
    rfl (by decide) (by decide)).1 rfl
  simpa [remoteMsg, remoteHeader, proxySample] using this

/-- Sample simple-client address. -/
def spClientA : ServicePath :=
  { region := "region-a", cluster := "cluster-a", node := "10.0.0.2-dpu0"
    resource_type := "dpu", resource_id := "0", service_type := "hamgrd", service_id := "0" }

/-- Sample address distinct from spClientA. -/
def spClientB : ServicePath :=
  { region := "region-a", cluster := "cluster-a", node := "10.0.0.2-dpu0"
    resource_type := "dpu", resource_id := "0", service_type := "hamgrd", service_id := "1" }

/-- Sample sink-mode simple client at address spClientA. -/
def clientSink : SimpleSwbusEdgeClient := { source := spClientA, sink := true, next_id := 7 }

/-- Sample non-sink simple client at address spClientA. -/
def clientPlain : SimpleSwbusEdgeClient := { source := spClientA, sink := false, next_id := 7 }

/-- Sample delivered message whose body is already a Response, destined to spClientB. -/
def responseToB : SwbusMessage :=
  { header := some
      { version := 1, id := 42, flag := 0, ttl := 63
        source := some spPingSource, destination := some spClientB }
    body := some (.Response
      { request_id := 5, error_code := .Ok, error_message := "", response_body := none }) }

/-- Sample delivered Response destined to spClientA itself. -/
def responseToA : SwbusMessage :=
  { header := some
      { version := 1, id := 42, flag := 0, ttl := 63
        source := some spPingSource, destination := some spClientA }
    body := some (.Response
      { request_id := 5, error_code := .Ok, error_message := "", response_body := none }) }

/-- C2, counterexample: the claim says a sink-mode simple client never answers a
Response it receives. At this concrete input the sink client at spClientA receives a
delivered Response destined to spClientB and synthesizes a NoRoute Response in reply,
so a response does beget a response here. -/
theorem C2_sink_answers_response :
    clientSink.handle_received_message responseToB =
      some (.Respond
        { header := some
            { version := 1, id := 7, flag := 0, ttl := 63
              source := some spClientA, destination := some spPingSource }
          body := some (.Response
            { request_id := 42, error_code := .NoRoute
              error_message := "Route not found", response_body := none }) }) := by
  rfl

/-- C2, amended: a simple client that is not in sink mode, or whose sink check passes
because the message is addressed exactly to it, never synthesizes a Response to a
delivered Response: the Response is handed to the actor unchanged (so recv delivers
it and nothing is sent back). Only the sink-mode interception of messages addressed
elsewhere answers a Response. -/
theorem C2_response_not_answered (c : SimpleSwbusEdgeClient) (msg : SwbusMessage)
    (h : SwbusMessageHeader) (src dst : ServicePath) (r : RequestResponse)
    (hh : msg.header = some h) (hs : h.source = some src) (hd : h.destination = some dst)
    (hb : msg.body = some (Body.Response r))
    (hns : c.sink = false ∨ dst = c.source) :
    c.handle_received_message msg =
      some (.PassToActor
        { id := h.id, source := src, destination := dst
          body := .Response r.request_id r.error_code r.error_message none }) := by
  have hcond : ¬(c.sink = true ∧ dst ≠ c.source) := by
    rcases hns with h1 | h1
    · simp [h1]
    · simp [h1]
  simp [SimpleSwbusEdgeClient.handle_received_message, hh, hs, hd, hb, hcond]

/-- Closed witness for the amended C2: a non-sink client passes a received Response
to the actor without synthesizing a reply. -/
theorem C2_response_not_answered_witness :
    clientPlain.handle_received_message responseToA =
      some (.PassToActor
        { id := 42, source := spPingSource, destination := spClientA
          body := .Response 5 .Ok "" none }) := by
  exact C2_response_not_answered clientPlain responseToA
    { version := 1, id := 42, flag := 0, ttl := 63
      source := some spPingSource, destination := some spClientA }
    spPingSource spClientA
    { request_id := 5, error_code := .Ok, error_message := "", response_body := none }
    rfl rfl rfl rfl (Or.inl rfl)

/-- C8: a sink-mode simple client, delivered a message whose destination is not
exactly its own address, sends exactly one NoRoute response ("Route not found",
request_id equal to the incoming id) back to the original source and discards the
message: the classification is Respond, never PassToActor, so recv does not return
it to the actor. -/
theorem C8_sink_noroute (c : SimpleSwbusEdgeClient) (msg : SwbusMessage)
    (h : SwbusMessageHeader) (src dst : ServicePath) (b : Body)
    (hh : msg.header = some h) (hs : h.source = some src) (hd : h.destination = some dst)
    (hb : msg.body = some b) (hsink : c.sink = true) (hne : dst ≠ c.source) :
    c.handle_received_message msg =
      some (.Respond
        { header := some
            { version := 1, id := c.next_id, flag := 0, ttl := 63
              source := some c.source, destination := some src }
          body := some (.Response
            { request_id := h.id, error_code := .NoRoute
              error_message := "Route not found", response_body := none }) }) := by
  simp [SimpleSwbusEdgeClient.handle_received_message, SwbusMessage.new,
    SwbusMessageHeader.new, RequestResponse.infra_error, hh, hs, hd, hb, hsink, hne]

/-- Closed witness for C8 at a concrete input (scenario 5, section 8): sink client at
spClientA, DataRequest destined to spClientB. -/
theorem C8_sink_noroute_witness :
    clientSink.handle_received_message
      { header := some
          { version := 1, id := 55, flag := 0, ttl := 63
            source := some spPingSource, destination := some spClientB }
        body := some (.DataRequest { payload := [9] }) } =
      some (.Respond
        { header := some
            { version := 1, id := 7, flag := 0, ttl := 63
              source := some spClientA, destination := some spPingSource }
          body := some (.Response
            { request_id := 55, error_code := .NoRoute
              error_message := "Route not found", response_body := none }) }) := by
  exact C8_sink_noroute clientSink
    { header := some
        { version := 1, id := 55, flag := 0, ttl := 63
          source := some spPingSource, destination := some spClientB }
      body := some (.DataRequest { payload := [9] }) }
    { version := 1, id := 55, flag := 0, ttl := 63
      source := some spPingSource, destination := some spClientB }
    spPingSource spClientB (.DataRequest { payload := [9] })
    rfl rfl rfl rfl rfl (by decide)

/-- C9: a PingRequest or TraceRouteRequest delivered to a simple client and not
intercepted by sink mode is auto-answered with an Ok Response addressed back to the
message's source, carrying the request's id as request_id; the classification is
Respond, never PassToActor, so recv does not return it to the actor. -/
theorem C9_autoreply (c : SimpleSwbusEdgeClient) (msg : SwbusMessage)
    (h : SwbusMessageHeader) (src dst : ServicePath)
    (hh : msg.header = some h) (hs : h.source = some src) (hd : h.destination = some dst)
    (hb : msg.body = some (Body.PingRequest {}) ∨ msg.body = some (Body.TraceRouteRequest {}))
    (hns : c.sink = false ∨ dst = c.source) :
    c.handle_received_message msg =
      some (.Respond
        { header := some
            { version := 1, id := c.next_id, flag := 0, ttl := 63
              source := some dst, destination := some src }
          body := some (.Response
            { request_id := h.id, error_code := .Ok
              error_message := "", response_body := none }) }) := by
  have hcond : ¬(c.sink = true ∧ dst ≠ c.source) := by
    rcases hns with h1 | h1
    · simp [h1]
    · simp [h1]
  rcases hb with hb | hb <;>
    simp [SimpleSwbusEdgeClient.handle_received_message, SwbusMessage.new,
      SwbusMessageHeader.new, RequestResponse.ok, hh, hs, hd, hb, hcond]

/-- Closed witness for C9 at a concrete input: a ping to a non-sink client at its own
address is auto-answered with an Ok response back to the sender. -/
theorem C9_autoreply_witness :
    clientPlain.handle_received_message
      { header := some
          { version := 1, id := 60, flag := 0, ttl := 63
            source := some spPingSource, destination := some spClientA }
        body := some (.PingRequest {}) } =
      some (.Respond
        { header := some
            { version := 1, id := 7, flag := 0, ttl := 63
              source := some spClientA, destination := some spPingSource }
          body := some (.Response
            { request_id := 60, error_code := .Ok
              error_message := "", response_body := none }) }) := by
  exact C9_autoreply clientPlain
    { header := some
        { version := 1, id := 60, flag := 0, ttl := 63
          source := some spPingSource, destination := some spClientA }
      body := some (.PingRequest {}) }
    { version := 1, id := 60, flag := 0, ttl := 63
      source := some spPingSource, destination := some spClientA }
    spPingSource spClientA rfl rfl rfl (Or.inl rfl) (Or.inl rfl)

/-- Sample OutgoingMessage carrying a ManagementRequest body. -/
def mgmtOutgoing : OutgoingMessage :=
  { destination := spRemoteDest, body := .ManagementRequest .SwbusdGetRoutes [] }

/-- Sample OutgoingMessage carrying a data Request body. -/
def dataOutgoing : OutgoingMessage :=
  { destination := spRemoteDest, body := .Request [1, 2, 3] }

/-- C10, counterexample: the claim quantifies over every OutgoingMessage, but sending
one whose body is a ManagementRequest hits unimplemented code: the compilation of the
outgoing message crashes (modelled by none), so no SwbusMessage is produced and send
returns no id. -/
theorem C10_mgmt_unimplemented :
    clientPlain.send (fun _ => Except.ok ()) mgmtOutgoing = none := by
  rfl

/-- C10, amended: for every OutgoingMessage whose body is a Request or a Response
(ManagementRequest bodies are unimplemented and crash), the compiled SwbusMessage
header carries the freshly generated id and the client's own service path as source,
the destination is the OutgoingMessage's destination unchanged, and send returns the
generated id. -/
theorem C10_send_stamps (c : SimpleSwbusEdgeClient) (msg : OutgoingMessage)
    (hb : ∀ rt args, msg.body ≠ MessageBody.ManagementRequest rt args) :
    (∃ m, c.outgoing_message_to_swbus_message msg = some (c.next_id, m)
       ∧ m.header = some
           { version := 1, id := c.next_id, flag := 0, ttl := 63
             source := some c.source, destination := some msg.destination })
    ∧ c.send (fun _ => Except.ok ()) msg = some (Except.ok c.next_id) := by
  cases hbody : msg.body with
  | Request payload =>
    constructor
    · refine ⟨{ header := some (SwbusMessageHeader.new c.source msg.destination c.next_id)
                body := some (.DataRequest { payload := payload }) }, ?_, ?_⟩
      · simp [SimpleSwbusEdgeClient.outgoing_message_to_swbus_message, hbody]
      · simp [SwbusMessageHeader.new]
    · simp [SimpleSwbusEdgeClient.send,
        SimpleSwbusEdgeClient.outgoing_message_to_swbus_message, hbody]
  | Response rid ec em rb =>
    constructor
    · refine ⟨{ header := some (SwbusMessageHeader.new c.source msg.destination c.next_id)
                body := some (.Response
                  { request_id := rid, error_code := ec, error_message := em
                    response_body := rb.map (fun b =>
                      match b with
                      | .ManagementQueryResult payload =>
                        ResponseBody.ManagementQueryResult payload) }) }, ?_, ?_⟩
      · simp [SimpleSwbusEdgeClient.outgoing_message_to_swbus_message, hbody]
      · simp [SwbusMessageHeader.new]
    · simp [SimpleSwbusEdgeClient.send,
        SimpleSwbusEdgeClient.outgoing_message_to_swbus_message, hbody]
  | ManagementRequest rt args =>
    exact absurd hbody (hb rt args)

/-- Closed witness for the amended C10 at a concrete input: a Request body is stamped
with the client's source, the unchanged destination, and the fresh id 7, and send
returns 7. -/
theorem C10_send_stamps_witness :
    clientPlain.outgoing_message_to_swbus_message dataOutgoing =
      some (7,
        { header := some
            { version := 1, id := 7, flag := 0, ttl := 63
              source := some spClientA, destination := some spRemoteDest }
          body := some (.DataRequest { payload := [1, 2, 3] }) })
    ∧ clientPlain.send (fun _ => Except.ok ()) dataOutgoing = some (Except.ok 7) := by
  have h := C10_send_stamps clientPlain dataOutgoing
    (fun rt args hc => by simp [dataOutgoing] at hc)
  exact ⟨rfl, h.2⟩
